import Mathlib

/-!
Verification development for the `oh_my_light` coordination engine
(`custom_components/oh_my_light`).  The Python source is shallowly embedded:
the pure decision logic of `coordinator.py` and `utils.py` is translated into
executable Lean functions; the host (Home Assistant) is modelled as an explicit
environment record, and the commands a coordinator would issue are returned as
explicit lists instead of being sent through `hass.services.async_call`.
-/

namespace OhMyLight

/-- Python `entity_id.split(".")[0]`: the characters before the first dot
(the whole string when it has no dot). -/
def domainOf (entityId : String) : String :=
  String.mk (entityId.toList.takeWhile (· ≠ '.'))

def STATE_ON : String := "on"

def STATE_OFF : String := "off"

def STATE_UNAVAILABLE : String := "unavailable"

/-- Attribute values appearing in a Home Assistant state's attribute dict. -/
inductive AttrVal
  | num (n : Int)
  | str (s : String)
  | strList (l : List String)
  deriving DecidableEq, Repr

/-- An attribute dict: association list from key to value, where a stored
value of `none` models Python `None` (present but null). -/
abbrev Attrs := List (String × Option AttrVal)

/-- One `hass.services.async_call(domain, service, {entity_id, **attrs})`. -/
structure Command where
  domain : String
  service : String
  entityId : String
  attrs : List (String × AttrVal)
  deriving DecidableEq, Repr

/-- The `LIGHT_SERVICES` dict from `coordinator.py`. -/
def LIGHT_SERVICES (s : String) : Option String :=
  if s = STATE_ON then some "turn_on"
  else if s = STATE_OFF then some "turn_off"
  else none

/-- The `SWITCH_SERVICES` dict from `coordinator.py`. -/
def SWITCH_SERVICES (s : String) : Option String :=
  if s = STATE_ON then some "turn_on"
  else if s = STATE_OFF then some "turn_off"
  else none

/-- The attribute filter inside `BaseCoordinator._async_set_light_entity_state`:
keep only `brightness` / `color_temp_kelvin` keys whose value is not `None`. -/
def filterLightAttrs (attrs : Attrs) : List (String × AttrVal) :=
  attrs.filterMap fun kv =>
    if kv.1 = "brightness" ∨ kv.1 = "color_temp_kelvin" then
      kv.2.map (fun v => (kv.1, v))
    else none

/-- Embeds `BaseCoordinator._async_set_light_entity_state`; returns the issued
service call, or `none` when the guards make the method return early. -/
def setLightEntityState (entityId desiredState : String)
    (desiredAttributes : Attrs := []) : Option Command :=
  let domain := domainOf entityId
  if domain ≠ "light" then none
  else if ¬ (desiredState = STATE_ON ∨ desiredState = STATE_OFF) then none
  else
    let attrs0 := if desiredState = STATE_OFF then [] else desiredAttributes
    let attrs := if attrs0.isEmpty then [] else filterLightAttrs attrs0
    some ⟨domain, (LIGHT_SERVICES desiredState).getD "", entityId, attrs⟩

/-- Embeds `BaseCoordinator._async_set_switch_entity_state`. -/
def setSwitchEntityState (entityId desiredState : String) : Option Command :=
  let domain := domainOf entityId
  if domain ≠ "switch" then none
  else if ¬ (desiredState = STATE_ON ∨ desiredState = STATE_OFF) then none
  else some ⟨domain, (SWITCH_SERVICES desiredState).getD "", entityId, []⟩

/-- A Home Assistant `State` object (its `state` string and attribute dict). -/
structure StateObj where
  state : String
  attributes : Attrs
  deriving DecidableEq, Repr

/-- A state-change event as delivered to `async_handle_event`
(`event.data["entity_id"/"old_state"/"new_state"]`, `event.time_fired`).
Timestamps are integers in microseconds, the resolution of Python datetimes. -/
structure HAEvent where
  entityId : Option String
  oldState : Option StateObj
  newState : Option StateObj
  timeFired : Int
  deriving DecidableEq, Repr

/-- The `datetime.timedelta(seconds=3)` threshold expressed in microseconds. -/
def threeSeconds : Int := 3000000

/-- The mutable per-coordinator suppression window:
`_fanned_out_entity_ids` and `_last_update_timestamp` (0 = never updated). -/
structure CoordState where
  fannedOut : Finset String
  lastUpdate : Int
  deriving DecidableEq

/-- Fresh coordinator state as built in `BaseCoordinator.__init__`. -/
def initialCoordState : CoordState := ⟨∅, 0⟩

/-- Shared quiescence step of every handler: clear `_fanned_out_entity_ids`
when there was no previous processed event or the gap exceeds 3 seconds. -/
def clearFannedOut (st : CoordState) (timeFired : Int) : Finset String :=
  if st.lastUpdate = 0 ∨ timeFired - st.lastUpdate > threeSeconds then ∅
  else st.fannedOut

/-- Result of one `async_handle_event` call: the service calls issued, the
coordinator state afterwards, and whether the handler performed the
unload-and-resetup path for a refreshed light group. -/
structure HandleResult where
  commands : List Command
  next : CoordState
  resubscribed : Bool
  deriving DecidableEq

/-- Static data of a `LightSyncCoordinator`:
`func_data["light_sync_entity_ids"]` together with the fields
`_lights_of_group` / `_lights_in_group` cached during setup. -/
structure LightSyncCoordinator where
  lightSyncEntityIds : List String
  lightsOfGroup : List (String × Finset String)
  lightsInGroup : Finset String
  deriving DecidableEq

/-- The keys of `self._lights_of_group`. -/
def LightSyncCoordinator.groupKeys (c : LightSyncCoordinator) : List String :=
  c.lightsOfGroup.map Prod.fst

/-- Embeds `LightSyncCoordinator.async_handle_event`.  The Python iteration over the
set `need_update_entity_ids` is rendered as iteration over the configured list
deduplicated with the source entity removed (an order refinement of the
unordered Python set whose underlying set of issued targets is identical). -/
def lightSyncHandleEvent (c : LightSyncCoordinator) (st : CoordState)
    (ev : HAEvent) : HandleResult :=
  match ev.oldState with
  | none => ⟨[], st, false⟩
  | some oldState =>
    match ev.entityId with
    | none => ⟨[], st, false⟩
    | some entityId =>
      if entityId = "" then ⟨[], st, false⟩
      else
        match ev.newState with
        | none => ⟨[], st, false⟩
        | some newState =>
          let state := newState.state
          if state = "" then ⟨[], st, false⟩
          else if entityId ∈ c.groupKeys ∧ oldState.state = STATE_UNAVAILABLE then
            ⟨[], st, true⟩
          else if ¬ (state = STATE_ON ∨ state = STATE_OFF) then ⟨[], st, false⟩
          else
            let fanned := clearFannedOut st ev.timeFired
            if entityId ∈ fanned then ⟨[], ⟨fanned, st.lastUpdate⟩, false⟩
            else
              let allIds : Finset String :=
                c.lightSyncEntityIds.toFinset ∪ c.groupKeys.toFinset ∪
                  c.lightsInGroup
              let fanned2 := fanned ∪ allIds.erase entityId
              let targets := c.lightSyncEntityIds.dedup.filter (· ≠ entityId)
              let commands := targets.filterMap fun t =>
                setLightEntityState t state newState.attributes
              ⟨commands, ⟨fanned2, ev.timeFired⟩, false⟩

/-- Static data of a `LightSwitchBindCoordinator`:
`func_data["light_entity_ids"]` and `func_data["switch_entity_ids"]`. -/
structure SwitchBindCoordinator where
  lightEntityIds : List String
  switchEntityIds : List String
  deriving DecidableEq

/-- Embeds `LightSwitchBindCoordinator.async_handle_event`.  As in the source, the
suppressed set is cleared on quiescence and extended with all bound light ids,
but its membership is never tested; iteration over the Python set
`need_update_entity_ids` is rendered as the deduplicated concatenated list
with the source entity removed. -/
def switchBindHandleEvent (c : SwitchBindCoordinator) (st : CoordState)
    (ev : HAEvent) : HandleResult :=
  match ev.oldState with
  | none => ⟨[], st, false⟩
  | some _ =>
    match ev.entityId with
    | none => ⟨[], st, false⟩
    | some entityId =>
      if entityId = "" then ⟨[], st, false⟩
      else
        match ev.newState with
        | none => ⟨[], st, false⟩
        | some newState =>
          let fanned := clearFannedOut st ev.timeFired
          if entityId ∉ c.lightEntityIds ++ c.switchEntityIds then
            ⟨[], ⟨fanned, st.lastUpdate⟩, false⟩
          else
            let fanned2 := fanned ∪ c.lightEntityIds.toFinset
            let targets :=
              (c.lightEntityIds ++ c.switchEntityIds).dedup.filter
                (· ≠ entityId)
            let commands := targets.filterMap fun e =>
              if e ∈ c.lightEntityIds then
                setLightEntityState e newState.state []
              else if e ∈ c.switchEntityIds then
                setSwitchEntityState e newState.state
              else none
            ⟨commands, ⟨fanned2, ev.timeFired⟩, false⟩

/-- Static data of a `LightEventBindCoordinator`:
`func_data["light_entity_ids"]` and `func_data["event_entity_ids"]`. -/
structure EventBindCoordinator where
  lightEntityIds : List String
  eventEntityIds : List String
  deriving DecidableEq

/-- The per-light body of the event-bind toggle loop: skip a light whose
state lookup fails (`continue`), otherwise set it to `off` when its live
state is `on` and to `on` otherwise, with an empty attribute dict. -/
def toggleCommand (states : String → Option StateObj) (l : String) :
    Option Command :=
  match states l with
  | none => none
  | some ls =>
    setLightEntityState l
      (if ls.state = STATE_ON then STATE_OFF else STATE_ON) []

/-- Embeds `LightEventBindCoordinator.async_handle_event`; `states` models
`self.hass.states.get`.  Like the switch-bind handler, the suppressed set is
maintained but never consulted.  The source's trailing debug log line reads
the toggle loop's variables after the loop and can itself fail (empty light
list, or last light unresolved) once all commands have already been issued;
logging is not modelled. -/
def eventBindHandleEvent (c : EventBindCoordinator)
    (states : String → Option StateObj) (st : CoordState)
    (ev : HAEvent) : HandleResult :=
  match ev.oldState with
  | none => ⟨[], st, false⟩
  | some _ =>
    match ev.entityId with
    | none => ⟨[], st, false⟩
    | some entityId =>
      if entityId = "" then ⟨[], st, false⟩
      else
        match ev.newState with
        | none => ⟨[], st, false⟩
        | some _ =>
          let fanned := clearFannedOut st ev.timeFired
          if entityId ∉ c.eventEntityIds then
            ⟨[], ⟨fanned, st.lastUpdate⟩, false⟩
          else
            let fanned2 := fanned ∪ c.lightEntityIds.toFinset
            let commands := c.lightEntityIds.filterMap (toggleCommand states)
            ⟨commands, ⟨fanned2, ev.timeFired⟩, false⟩

/-- Modelled from the spec: the RelationshipDefinition payload for SWITCH_BIND
includes "a wireless flag" (spec, section 3).  No such flag is stored by the
configuration flow or read by `LightSwitchBindCoordinator` in the source, so
it is embedded as an additional payload field. -/
structure SwitchBindPayload where
  switchEntityIds : List String
  lightEntityIds : List String
  wireless : Bool
  deriving DecidableEq

/-- Event handling for a SWITCH_BIND payload: the coordinator reads only the
two entity-id lists of `func_data`, so the payload's wireless flag never
reaches `LightSwitchBindCoordinator.async_handle_event`. -/
def switchBindPayloadHandleEvent (p : SwitchBindPayload) (st : CoordState)
    (ev : HAEvent) : HandleResult :=
  switchBindHandleEvent ⟨p.lightEntityIds, p.switchEntityIds⟩ st ev

/-- The host environment visible to `utils.py`: `hass.states.get`, and the
set of entity ids whose registered entity object is a `LightGroup` instance
(the `isinstance` test in `is_light_group_entity`). -/
structure Host where
  states : String → Option StateObj
  lightGroups : Finset String

/-- Embeds `utils.is_light_group_entity` (an entity id missing from the light entity
component is simply not in `lightGroups`). -/
def isLightGroupEntity (h : Host) (entityId : String) : Bool :=
  if entityId = "" then false
  else if ¬ "light.".toList.isPrefixOf entityId.toList then false
  else decide (entityId ∈ h.lightGroups)

/-- The `state.attributes.get("entity_id")` member list of a group state; in
the source a present non-list value here would fail `set.update`, so such
states lie outside the modelled domain and contribute nothing. -/
def stateMemberIds (s : StateObj) : List String :=
  match (s.attributes.find? fun kv => kv.1 = "entity_id").map Prod.snd with
  | some (some (AttrVal.strList l)) => l
  | _ => []

/-- Embeds `utils.async_list_light_in_light_group`. -/
def listLightInLightGroup (h : Host) (groupIds : List String) : Finset String :=
  groupIds.foldl
    (fun acc g =>
      match h.states g with
      | none => acc
      | some s => acc ∪ (stateMemberIds s).toFinset)
    ∅

/-- The loop body of `utils.async_parse_light` for one entity id: a missing
entity is skipped, a group id is recorded with its resolved members (the
insertion-ordered Python dict keeps the first position of a key, and
re-resolution of the same group yields the same member set, so a duplicate
group id keeps its first entry), anything else joins the plain lights. -/
def parseLightStep (h : Host)
    (acc : Finset String × List (String × Finset String)) (eid : String) :
    Finset String × List (String × Finset String) :=
  match h.states eid with
  | none => acc
  | some _ =>
    if isLightGroupEntity h eid then
      if (acc.2.find? fun kv => kv.1 = eid).isSome then acc
      else (acc.1, acc.2 ++ [(eid, listLightInLightGroup h [eid])])
    else (insert eid acc.1, acc.2)

/-- Embeds `utils.async_parse_light`: split ids into plain lights and groups with
their resolved members. -/
def parseLight (h : Host) (lightEntityIds : List String) :
    Finset String × List (String × Finset String) :=
  lightEntityIds.foldl (parseLightStep h) (∅, [])

/-- One registered config entry as seen by the conflict scan: its title, its
`data["func_name"]`, whether a coordinator is attached, and that coordinator's
`_listened_entity_ids` when present. -/
structure RegEntry where
  title : String
  funcName : String
  hasCoordinator : Bool
  listenedEntityIds : Option (Finset String)
  deriving DecidableEq

/-- Embeds `utils.async_whether_light_listen_by_other`: first non-empty intersection
of the candidate ids with the listened ids of another same-kind entry. -/
def whetherLightListenByOther (entries : List RegEntry)
    (entryName fn : String) (candidates : Finset String) :
    Finset String × Option RegEntry :=
  match entries with
  | [] => (∅, none)
  | e :: rest =>
    if e.funcName ≠ fn then
      whetherLightListenByOther rest entryName fn candidates
    else if e.title = entryName then
      whetherLightListenByOther rest entryName fn candidates
    else if ¬ e.hasCoordinator then
      whetherLightListenByOther rest entryName fn candidates
    else
      match e.listenedEntityIds with
      | none => whetherLightListenByOther rest entryName fn candidates
      | some lids =>
        if (candidates ∩ lids).Nonempty then (candidates ∩ lids, some e)
        else whetherLightListenByOther rest entryName fn candidates

/-- The dataclass `ListenResult` from `coordinator.py`. -/
structure ListenResult where
  entityIds : Option (Finset String)
  satisfied : Bool
  unsatisfiedReason : Option String
  unsatisfiedReasonPlaceholders : List (String × String)
  deriving DecidableEq

/-- Sorting a finite set of strings, via the structurally recursive insertion
sort (well-defined on the quotient because sorted permutations coincide). -/
def sortedList (s : Finset String) : List String :=
  Quot.liftOn s.val (List.insertionSort (· ≤ ·)) fun _ _ h =>
    List.eq_of_perm_of_sorted
      ((List.perm_insertionSort _ _).trans
        ((Quotient.exact (Quot.sound h)).trans
          (List.perm_insertionSort _ _).symm))
      (List.sorted_insertionSort _ _) (List.sorted_insertionSort _ _)

/-- Python `",".join(...)` over a set, rendered over the sorted elements (a
deterministic refinement of the unordered Python set iteration). -/
def joinComma (s : Finset String) : String :=
  String.intercalate "," (sortedList s)

/-- Union of all group member sets, Python `set().union(*values)`. -/
def unionMembers (groups : List (String × Finset String)) : Finset String :=
  groups.foldl (fun acc kv => acc ∪ kv.2) ∅

/-- Successful outcome of `LightSyncCoordinator.async_list_entities_to_listen`
together with the `_lights_of_group` / `_lights_in_group` fields it assigns. -/
structure LightSyncListen where
  result : ListenResult
  lightsOfGroup : List (String × Finset String)
  lightsInGroup : Finset String
  deriving DecidableEq

/-- Embeds `LightSyncCoordinator.async_list_entities_to_listen`.  With an empty
configured list the source constructs `ListenResult(...)` with an `errors`
keyword the dataclass does not declare, which raises a `TypeError`; this is
modelled as the `Except.error` branch. -/
def lightSyncListEntitiesToListen (h : Host) (entries : List RegEntry)
    (title fn : String) (lightSyncEntityIds : List String) :
    Except String LightSyncListen :=
  if lightSyncEntityIds.isEmpty then
    Except.error "TypeError: unexpected keyword argument errors"
  else
    let parsed := parseLight h lightSyncEntityIds
    let normal := parsed.1
    let groups := parsed.2
    let candidates := normal ∪ unionMembers groups
    let scan := whetherLightListenByOther entries title fn candidates
    if scan.1.Nonempty then
      Except.ok
        ⟨{ entityIds := none
           satisfied := false
           unsatisfiedReason := some "light_entity_ids_in_other_entries"
           unsatisfiedReasonPlaceholders :=
             [("existing_light_entity_ids", joinComma scan.1),
              ("existing_config_entry_id", (scan.2.map (·.title)).getD "")] },
         [], ∅⟩
    else
      Except.ok
        ⟨{ entityIds :=
             some (normal ∪ (groups.map Prod.fst).toFinset ∪
               unionMembers groups)
           satisfied := true
           unsatisfiedReason := none
           unsatisfiedReasonPlaceholders := [] },
         groups, unionMembers groups⟩

/-- Embeds `LightSwitchBindCoordinator.async_list_entities_to_listen`: always
satisfied, watch set is lights plus switches. -/
def switchBindListEntitiesToListen (c : SwitchBindCoordinator) : ListenResult :=
  ⟨some (c.lightEntityIds ++ c.switchEntityIds).toFinset, true, none, []⟩

/-- Embeds `LightEventBindCoordinator.async_list_entities_to_listen`: always
satisfied, watch set is the event entities. -/
def eventBindListEntitiesToListen (c : EventBindCoordinator) : ListenResult :=
  ⟨some c.eventEntityIds.toFinset, true, none, []⟩

/-- Outcome of `BaseCoordinator.async_setup`. -/
inductive SetupOutcome
  | raisedError (msg : String)
  | setupError (reason : Option String) (placeholders : List (String × String))
  | listening (watched : Finset String)
  deriving DecidableEq

/-- The shared tail of `BaseCoordinator.async_setup` after
`async_list_entities_to_listen` returned. -/
def setupFromListen (r : ListenResult) : SetupOutcome :=
  if ¬ r.satisfied then
    .setupError r.unsatisfiedReason r.unsatisfiedReasonPlaceholders
  else .listening (r.entityIds.getD ∅)

/-- Embeds `async_setup` of a `LightSyncCoordinator`. -/
def lightSyncSetup (h : Host) (entries : List RegEntry) (title fn : String)
    (lightSyncEntityIds : List String) : SetupOutcome :=
  match lightSyncListEntitiesToListen h entries title fn lightSyncEntityIds with
  | .error m => .raisedError m
  | .ok r => setupFromListen r.result

/-- Embeds `async_setup` of a `LightSwitchBindCoordinator`. -/
def switchBindSetup (c : SwitchBindCoordinator) : SetupOutcome :=
  setupFromListen (switchBindListEntitiesToListen c)

/-- Embeds `async_setup` of a `LightEventBindCoordinator`. -/
def eventBindSetup (c : EventBindCoordinator) : SetupOutcome :=
  setupFromListen (eventBindListEntitiesToListen c)

/-! ## Helper lemmas -/

theorem setLightEntityState_eq_some (t s : String) (attrs : Attrs)
    (hd : domainOf t = "light") (hs : s = STATE_ON ∨ s = STATE_OFF) :
    setLightEntityState t s attrs =
      some ⟨"light", (LIGHT_SERVICES s).getD "", t,
        if (if s = STATE_OFF then ([] : Attrs) else attrs).isEmpty then []
        else filterLightAttrs (if s = STATE_OFF then [] else attrs)⟩ := by
  simp only [setLightEntityState, hd]
  simp [hs]

theorem setSwitchEntityState_eq_some (t s : String)
    (hd : domainOf t = "switch") (hs : s = STATE_ON ∨ s = STATE_OFF) :
    setSwitchEntityState t s =
      some ⟨"switch", (SWITCH_SERVICES s).getD "", t, []⟩ := by
  simp only [setSwitchEntityState, hd]
  simp [hs]

theorem map_entityId_filterMap (f : String → Option Command) (l : List String)
    (h : ∀ x ∈ l, ∃ cmd, f x = some cmd ∧ cmd.entityId = x) :
    (l.filterMap f).map (·.entityId) = l := by
  induction l with
  | nil => simp
  | cons a as ih =>
    obtain ⟨cmd, hf, he⟩ := h a (by simp)
    simp only [List.filterMap_cons, hf, List.map_cons, he]
    exact congrArg _ (ih fun x hx => h x (by simp [hx]))

theorem lightSyncHandleEvent_processed (c : LightSyncCoordinator)
    (st : CoordState) (eid : String) (old new : StateObj) (t : Int)
    (hne : eid ≠ "")
    (hstate : new.state = STATE_ON ∨ new.state = STATE_OFF)
    (hgroup : ¬ (eid ∈ c.groupKeys ∧ old.state = STATE_UNAVAILABLE))
    (hsup : eid ∉ clearFannedOut st t) :
    lightSyncHandleEvent c st ⟨some eid, some old, some new, t⟩ =
      ⟨(c.lightSyncEntityIds.dedup.filter (· ≠ eid)).filterMap
          (fun x => setLightEntityState x new.state new.attributes),
        ⟨clearFannedOut st t ∪
            (c.lightSyncEntityIds.toFinset ∪ c.groupKeys.toFinset ∪
              c.lightsInGroup).erase eid,
          t⟩,
        false⟩ := by
  have hne2 : new.state ≠ "" := by
    rcases hstate with h | h <;> simp [h, STATE_ON, STATE_OFF]
  simp [lightSyncHandleEvent, hne, hne2, hgroup, hsup, hstate]

theorem switchBindHandleEvent_processed (c : SwitchBindCoordinator)
    (st : CoordState) (eid : String) (old new : StateObj) (t : Int)
    (hne : eid ≠ "")
    (hmem : eid ∈ c.lightEntityIds ++ c.switchEntityIds) :
    switchBindHandleEvent c st ⟨some eid, some old, some new, t⟩ =
      ⟨((c.lightEntityIds ++ c.switchEntityIds).dedup.filter
          (· ≠ eid)).filterMap
          (fun e =>
            if e ∈ c.lightEntityIds then setLightEntityState e new.state []
            else if e ∈ c.switchEntityIds then
              setSwitchEntityState e new.state
            else none),
        ⟨clearFannedOut st t ∪ c.lightEntityIds.toFinset, t⟩,
        false⟩ := by
  simp [switchBindHandleEvent, hne, hmem]

theorem switchBindHandleEvent_unknown (c : SwitchBindCoordinator)
    (st : CoordState) (eid : String) (old new : StateObj) (t : Int)
    (hne : eid ≠ "")
    (hmem : eid ∉ c.lightEntityIds ++ c.switchEntityIds) :
    switchBindHandleEvent c st ⟨some eid, some old, some new, t⟩ =
      ⟨[], ⟨clearFannedOut st t, st.lastUpdate⟩, false⟩ := by
  simp [switchBindHandleEvent, hne, hmem]

theorem eventBindHandleEvent_processed (c : EventBindCoordinator)
    (states : String → Option StateObj) (st : CoordState) (eid : String)
    (old new : StateObj) (t : Int)
    (hne : eid ≠ "")
    (hmem : eid ∈ c.eventEntityIds) :
    eventBindHandleEvent c states st ⟨some eid, some old, some new, t⟩ =
      ⟨c.lightEntityIds.filterMap (toggleCommand states),
        ⟨clearFannedOut st t ∪ c.lightEntityIds.toFinset, t⟩,
        false⟩ := by
  simp [eventBindHandleEvent, hne, hmem]

theorem eventBindHandleEvent_unknown (c : EventBindCoordinator)
    (states : String → Option StateObj) (st : CoordState) (eid : String)
    (old new : StateObj) (t : Int)
    (hne : eid ≠ "")
    (hmem : eid ∉ c.eventEntityIds) :
    eventBindHandleEvent c states st ⟨some eid, some old, some new, t⟩ =
      ⟨[], ⟨clearFannedOut st t, st.lastUpdate⟩, false⟩ := by
  simp [eventBindHandleEvent, hne, hmem]

theorem setLightEntityState_on (t : String) (attrs : Attrs)
    (hd : domainOf t = "light") :
    setLightEntityState t STATE_ON attrs =
      some ⟨"light", "turn_on", t,
        if attrs.isEmpty then [] else filterLightAttrs attrs⟩ := by
  simp [setLightEntityState, hd, STATE_ON, STATE_OFF, LIGHT_SERVICES]

theorem setLightEntityState_off (t : String) (attrs : Attrs)
    (hd : domainOf t = "light") :
    setLightEntityState t STATE_OFF attrs =
      some ⟨"light", "turn_off", t, []⟩ := by
  simp [setLightEntityState, hd, STATE_ON, STATE_OFF, LIGHT_SERVICES]

theorem mem_filterLightAttrs (attrs : Attrs) (k : String) (v : AttrVal) :
    (k, v) ∈ filterLightAttrs attrs ↔
      (k = "brightness" ∨ k = "color_temp_kelvin") ∧ (k, some v) ∈ attrs := by
  simp only [filterLightAttrs, List.mem_filterMap]
  constructor
  · rintro ⟨⟨k', ov⟩, hmem, hf⟩
    by_cases hk : k' = "brightness" ∨ k' = "color_temp_kelvin"
    · simp only [hk, if_pos] at hf
      obtain ⟨v', hv', heq⟩ := Option.map_eq_some'.mp hf
      obtain ⟨hk1, hv1⟩ := Prod.mk.injEq .. ▸ heq
      refine ⟨by simp [← hk1, hk], ?_⟩
      simpa [← hk1, ← hv1, hv'] using hmem
    · simp [hk] at hf
  · rintro ⟨hk, hmem⟩
    exact ⟨(k, some v), hmem, by simp [hk]⟩

/-! ## Claim theorems -/

theorem setLightEntityState_empty_attrs (t s : String)
    (hd : domainOf t = "light") (hs : s = STATE_ON ∨ s = STATE_OFF) :
    setLightEntityState t s [] =
      some ⟨"light", (LIGHT_SERVICES s).getD "", t, []⟩ := by
  rw [setLightEntityState_eq_some t s [] hd hs]
  rcases hs with h | h <;> simp [h]

theorem toggleCommand_none (states : String → Option StateObj) (l : String)
    (h : states l = none) : toggleCommand states l = none := by
  simp [toggleCommand, h]

theorem toggleCommand_eq (states : String → Option StateObj) (l : String)
    (ls : StateObj) (hd : domainOf l = "light") (h : states l = some ls) :
    toggleCommand states l =
      some ⟨"light", if ls.state = STATE_ON then "turn_off" else "turn_on",
        l, []⟩ := by
  simp only [toggleCommand, h]
  by_cases hs : ls.state = STATE_ON
  · rw [if_pos hs, setLightEntityState_empty_attrs l STATE_OFF hd (Or.inr rfl)]
    simp [LIGHT_SERVICES, STATE_ON, STATE_OFF, hs]
  · rw [if_neg hs, setLightEntityState_empty_attrs l STATE_ON hd (Or.inl rfl)]
    simp only [STATE_ON] at hs
    simp [LIGHT_SERVICES, STATE_ON, STATE_OFF, hs]

theorem toggle_map_entityId (states : String → Option StateObj)
    (l : List String) (hl : ∀ x ∈ l, domainOf x = "light") :
    (l.filterMap (toggleCommand states)).map (·.entityId) =
      l.filter (fun x => (states x).isSome) := by
  induction l with
  | nil => simp
  | cons a as ih =>
    cases ha : states a with
    | none =>
      rw [List.filterMap_cons, toggleCommand_none states a ha]
      simp only [List.filter_cons, ha, Option.isSome_none]
      exact ih fun x hx => hl x (by simp [hx])
    | some ls =>
      rw [List.filterMap_cons, toggleCommand_eq states a ls (hl a (by simp)) ha]
      simp only [List.map_cons, List.filter_cons, ha, Option.isSome_some]
      exact congrArg _ (ih fun x hx => hl x (by simp [hx]))

/-- C7: a processed EVENT_BIND notification from a bound event entity issues
exactly one command per bound light whose live state resolves, turning each
such light off when its live state is `on` and on otherwise, with an empty
attribute set; notifications from entities outside the bound event list
issue no command. -/
theorem c7_event_bind_toggle (c : EventBindCoordinator)
    (states : String → Option StateObj) (st : CoordState) (eid : String)
    (old new : StateObj) (t : Int)
    (hne : eid ≠ "")
    (hl : ∀ x ∈ c.lightEntityIds, domainOf x = "light") :
    let R := eventBindHandleEvent c states st ⟨some eid, some old, some new, t⟩
    (eid ∈ c.eventEntityIds →
      R.commands.map (·.entityId) =
        c.lightEntityIds.filter (fun l => (states l).isSome) ∧
      (∀ l ∈ c.lightEntityIds, ∀ ls, states l = some ls →
        (⟨"light", if ls.state = STATE_ON then "turn_off" else "turn_on", l,
          []⟩ : Command) ∈ R.commands) ∧
      (∀ cmd ∈ R.commands, cmd.domain = "light" ∧ cmd.attrs = [] ∧
        ∃ ls, states cmd.entityId = some ls ∧
          cmd.service =
            if ls.state = STATE_ON then "turn_off" else "turn_on")) ∧
    (eid ∉ c.eventEntityIds → R.commands = []) := by
  intro R
  constructor
  · intro hmem
    have hR : R = ⟨c.lightEntityIds.filterMap (toggleCommand states),
        ⟨clearFannedOut st t ∪ c.lightEntityIds.toFinset, t⟩, false⟩ :=
      eventBindHandleEvent_processed c states st eid old new t hne hmem
    refine ⟨?_, ?_, ?_⟩
    · rw [hR]
      exact toggle_map_entityId states c.lightEntityIds hl
    · intro l hlm ls hls
      rw [hR]
      exact List.mem_filterMap.mpr
        ⟨l, hlm, toggleCommand_eq states l ls (hl l hlm) hls⟩
    · intro cmd hcmd
      rw [hR] at hcmd
      obtain ⟨l, hlm, hfl⟩ := List.mem_filterMap.mp hcmd
      cases hls : states l with
      | none => rw [toggleCommand_none states l hls] at hfl; cases hfl
      | some ls =>
        rw [toggleCommand_eq states l ls (hl l hlm) hls] at hfl
        obtain rfl := Option.some.inj hfl
        exact ⟨rfl, rfl, ls, hls, rfl⟩
  · intro hmem
    show (eventBindHandleEvent c states st
      ⟨some eid, some old, some new, t⟩).commands = []
    rw [eventBindHandleEvent_unknown c states st eid old new t hne hmem]

/-- Witness for C7 at a concrete binding with one resolvable (currently on)
and one unresolvable bound light. -/
theorem c7_event_bind_toggle_witness :
    ("event.e" : String) ≠ "" ∧
    (∀ x ∈ (["light.a", "light.b"] : List String), domainOf x = "light") ∧
    (let states : String → Option StateObj :=
      fun l => if l = "light.a" then some ⟨"on", []⟩ else none
     let R := eventBindHandleEvent ⟨["light.a", "light.b"], ["event.e"]⟩
        states initialCoordState
        ⟨some "event.e", some ⟨"off", []⟩, some ⟨"on", []⟩, 10000000⟩
     (("event.e" : String) ∈ (["event.e"] : List String) →
      R.commands.map (·.entityId) =
        (["light.a", "light.b"] : List String).filter
          (fun l => (states l).isSome) ∧
      (∀ l ∈ (["light.a", "light.b"] : List String), ∀ ls, states l = some ls →
        (⟨"light", if ls.state = STATE_ON then "turn_off" else "turn_on", l,
          []⟩ : Command) ∈ R.commands) ∧
      (∀ cmd ∈ R.commands, cmd.domain = "light" ∧ cmd.attrs = [] ∧
        ∃ ls, states cmd.entityId = some ls ∧
          cmd.service =
            if ls.state = STATE_ON then "turn_off" else "turn_on")) ∧
    (("event.e" : String) ∉ (["event.e"] : List String) →
      R.commands = [])) :=
  ⟨by decide, by decide,
    c7_event_bind_toggle ⟨["light.a", "light.b"], ["event.e"]⟩
      (fun l => if l = "light.a" then some ⟨"on", []⟩ else none)
      initialCoordState "event.e" ⟨"off", []⟩ ⟨"on", []⟩ 10000000
      (by decide) (by decide)⟩

theorem parseLightStep_fst_mono (h : Host)
    (acc : Finset String × List (String × Finset String)) (e x : String)
    (hx : x ∈ acc.1) : x ∈ (parseLightStep h acc e).1 := by
  unfold parseLightStep
  cases h.states e with
  | none => exact hx
  | some s =>
    split_ifs with h1 h2
    · exact hx
    · exact hx
    · exact Finset.mem_insert_of_mem hx

theorem parseLightStep_self (h : Host)
    (acc : Finset String × List (String × Finset String)) (x : String)
    (hs : (h.states x).isSome) (hg : isLightGroupEntity h x = false) :
    x ∈ (parseLightStep h acc x).1 := by
  unfold parseLightStep
  obtain ⟨s, hsome⟩ := Option.isSome_iff_exists.mp hs
  rw [hsome]
  simp only [hg, Bool.false_eq_true, if_false]
  exact Finset.mem_insert_self x acc.1

theorem parseLight_foldl_mono (h : Host) (x : String) :
    ∀ (l : List String) (acc : Finset String × List (String × Finset String)),
      x ∈ acc.1 → x ∈ (l.foldl (parseLightStep h) acc).1 := by
  intro l
  induction l with
  | nil => intro acc hx; simpa using hx
  | cons e rest ih =>
    intro acc hx
    rw [List.foldl_cons]
    exact ih _ (parseLightStep_fst_mono h acc e x hx)

theorem parseLight_mem_normal (h : Host) (ids : List String) (x : String)
    (hx : x ∈ ids) (hs : (h.states x).isSome)
    (hg : isLightGroupEntity h x = false) : x ∈ (parseLight h ids).1 := by
  unfold parseLight
  suffices H : ∀ (l : List String)
      (acc : Finset String × List (String × Finset String)), x ∈ l →
      x ∈ (l.foldl (parseLightStep h) acc).1 from H ids _ hx
  intro l
  induction l with
  | nil => intro acc hmem; cases hmem
  | cons e rest ih =>
    intro acc hmem
    rw [List.foldl_cons]
    rcases List.mem_cons.mp hmem with rfl | hmem2
    · exact parseLight_foldl_mono h x rest _ (parseLightStep_self h acc x hs hg)
    · exact ih _ hmem2

theorem whetherLightListenByOther_sound :
    ∀ (entries : List RegEntry) (en fn : String) (cand s : Finset String)
      (o : RegEntry),
      whetherLightListenByOther entries en fn cand = (s, some o) →
      o ∈ entries ∧ o.funcName = fn ∧ o.title ≠ en ∧ o.hasCoordinator = true ∧
        ∃ lids, o.listenedEntityIds = some lids ∧ s = cand ∩ lids ∧
          s.Nonempty := by
  intro entries
  induction entries with
  | nil =>
    intro en fn cand s o hEq
    simp [whetherLightListenByOther] at hEq
  | cons e rest ih =>
    intro en fn cand s o hEq
    rw [whetherLightListenByOther] at hEq
    by_cases h1 : e.funcName ≠ fn
    · rw [if_pos h1] at hEq
      obtain ⟨hm, hrest⟩ := ih en fn cand s o hEq
      exact ⟨List.mem_cons_of_mem e hm, hrest⟩
    · rw [if_neg h1] at hEq
      by_cases h2 : e.title = en
      · rw [if_pos h2] at hEq
        obtain ⟨hm, hrest⟩ := ih en fn cand s o hEq
        exact ⟨List.mem_cons_of_mem e hm, hrest⟩
      · rw [if_neg h2] at hEq
        by_cases h3 : ¬ e.hasCoordinator
        · rw [if_pos h3] at hEq
          obtain ⟨hm, hrest⟩ := ih en fn cand s o hEq
          exact ⟨List.mem_cons_of_mem e hm, hrest⟩
        · rw [if_neg h3] at hEq
          cases hle : e.listenedEntityIds with
          | none =>
            rw [hle] at hEq
            dsimp only at hEq
            obtain ⟨hm, hrest⟩ := ih en fn cand s o hEq
            exact ⟨List.mem_cons_of_mem e hm, hrest⟩
          | some lids =>
            rw [hle] at hEq
            dsimp only at hEq
            by_cases hne : (cand ∩ lids).Nonempty
            · rw [if_pos hne] at hEq
              injection hEq with hs ho
              obtain rfl := Option.some.inj ho
              exact ⟨List.mem_cons_self .., not_not.mp h1, h2, not_not.mp h3,
                lids, hle, hs.symm, hs ▸ hne⟩
            · rw [if_neg hne] at hEq
              obtain ⟨hm, hrest⟩ := ih en fn cand s o hEq
              exact ⟨List.mem_cons_of_mem e hm, hrest⟩

theorem whetherLightListenByOther_cons_hit (e : RegEntry)
    (rest : List RegEntry) (en fn : String) (cand lids : Finset String)
    (h1 : e.funcName = fn) (h2 : e.title ≠ en) (h3 : e.hasCoordinator = true)
    (h4 : e.listenedEntityIds = some lids) (h5 : (cand ∩ lids).Nonempty) :
    whetherLightListenByOther (e :: rest) en fn cand =
      (cand ∩ lids, some e) := by
  rw [whetherLightListenByOther]
  simp [h1, h2, h3, h4, h5]

theorem whetherLightListenByOther_cons_skip (e : RegEntry)
    (rest : List RegEntry) (en fn : String) (cand : Finset String)
    (hskip : e.funcName ≠ fn ∨ e.title = en ∨ e.hasCoordinator = false ∨
      ∀ lids, e.listenedEntityIds = some lids → cand ∩ lids = ∅) :
    whetherLightListenByOther (e :: rest) en fn cand =
      whetherLightListenByOther rest en fn cand := by
  rw [whetherLightListenByOther]
  rcases hskip with h | h | h | h
  · simp [h]
  · simp [h]
  · simp [h]
  · cases hle : e.listenedEntityIds with
    | none => simp [hle]
    | some lids =>
      simp [hle, Finset.not_nonempty_iff_eq_empty.mpr (h lids hle)]

/-- C9: a LIGHT_SYNC relationship set up while another registered same-kind
coordinator with a different name already listens to one of its lights fails
its listen step with a conflict reason whose placeholders name that
coordinator's entry and the overlapping ids; and the conflict scan skips
entries of another kind, the requester itself and coordinator-less entries,
returning the first non-empty intersection of the candidates with a watched
set. -/
theorem c9_conflict_detection (h : Host) (A : RegEntry)
    (lidsA : Finset String) (title fn : String) (ids : List String)
    (L : String)
    (hfn : A.funcName = fn) (htitle : A.title ≠ title)
    (hco : A.hasCoordinator = true)
    (hlids : A.listenedEntityIds = some lidsA)
    (hLids : L ∈ ids) (hLst : (h.states L).isSome)
    (hLg : isLightGroupEntity h L = false) (hLlist : L ∈ lidsA) :
    (∃ r, lightSyncListEntitiesToListen h [A] title fn ids = .ok r ∧
      r.result.satisfied = false ∧
      r.result.unsatisfiedReason =
        some "light_entity_ids_in_other_entries" ∧
      r.result.unsatisfiedReasonPlaceholders =
        [("existing_light_entity_ids",
          joinComma (((parseLight h ids).1 ∪
            unionMembers (parseLight h ids).2) ∩ lidsA)),
         ("existing_config_entry_id", A.title)]) ∧
    (∀ entries en fn2 cand s o,
      whetherLightListenByOther entries en fn2 cand = (s, some o) →
      o ∈ entries ∧ o.funcName = fn2 ∧ o.title ≠ en ∧
        o.hasCoordinator = true ∧
        ∃ lids, o.listenedEntityIds = some lids ∧ s = cand ∩ lids ∧
          s.Nonempty) ∧
    (∀ e rest en fn2 cand lids, e.funcName = fn2 → e.title ≠ en →
      e.hasCoordinator = true → e.listenedEntityIds = some lids →
      (cand ∩ lids).Nonempty →
      whetherLightListenByOther (e :: rest) en fn2 cand =
        (cand ∩ lids, some e)) ∧
    (∀ e rest en fn2 cand,
      (e.funcName ≠ fn2 ∨ e.title = en ∨ e.hasCoordinator = false ∨
        ∀ lids, e.listenedEntityIds = some lids → cand ∩ lids = ∅) →
      whetherLightListenByOther (e :: rest) en fn2 cand =
        whetherLightListenByOther rest en fn2 cand) := by
  refine ⟨?_, whetherLightListenByOther_sound,
    whetherLightListenByOther_cons_hit, whetherLightListenByOther_cons_skip⟩
  have hids : ids.isEmpty = false := by
    cases ids with
    | nil => cases hLids
    | cons a as => rfl
  have hLnormal : L ∈ (parseLight h ids).1 :=
    parseLight_mem_normal h ids L hLids hLst hLg
  have hinter : (((parseLight h ids).1 ∪
      unionMembers (parseLight h ids).2) ∩ lidsA).Nonempty :=
    ⟨L, Finset.mem_inter.mpr ⟨Finset.mem_union_left _ hLnormal, hLlist⟩⟩
  have hscan := whetherLightListenByOther_cons_hit A [] title fn
    ((parseLight h ids).1 ∪ unionMembers (parseLight h ids).2) lidsA
    hfn htitle hco hlids hinter
  refine ⟨⟨⟨none, false, some "light_entity_ids_in_other_entries",
    [("existing_light_entity_ids",
      joinComma (((parseLight h ids).1 ∪
        unionMembers (parseLight h ids).2) ∩ lidsA)),
     ("existing_config_entry_id", A.title)]⟩, [], ∅⟩, ?_, rfl, rfl, rfl⟩
  simp only [lightSyncListEntitiesToListen, hids, Bool.false_eq_true,
    if_false, hscan, if_pos hinter]
  rfl

/-- Witness for C9: relationship `A` already listens to `light.x`; setting up
`B` over `[light.x, light.y]` fails with the conflict reason naming `A`. -/
theorem c9_conflict_detection_witness :
    (⟨"A", "light_sync", true, some {"light.x"}⟩ : RegEntry).funcName =
      "light_sync" ∧
    (⟨"A", "light_sync", true, some {"light.x"}⟩ : RegEntry).title ≠ "B" ∧
    ("light.x" : String) ∈ (["light.x", "light.y"] : List String) ∧
    ((⟨fun e => if e = "light.x" ∨ e = "light.y" then some ⟨"on", []⟩
        else none, ∅⟩ : Host).states "light.x").isSome ∧
    isLightGroupEntity
      ⟨fun e => if e = "light.x" ∨ e = "light.y" then some ⟨"on", []⟩
        else none, ∅⟩ "light.x" = false ∧
    ("light.x" : String) ∈ ({"light.x"} : Finset String) ∧
    ((∃ r, lightSyncListEntitiesToListen
        ⟨fun e => if e = "light.x" ∨ e = "light.y" then some ⟨"on", []⟩
          else none, ∅⟩
        [⟨"A", "light_sync", true, some {"light.x"}⟩] "B" "light_sync"
        ["light.x", "light.y"] = .ok r ∧
      r.result.satisfied = false ∧
      r.result.unsatisfiedReason =
        some "light_entity_ids_in_other_entries" ∧
      r.result.unsatisfiedReasonPlaceholders =
        [("existing_light_entity_ids",
          joinComma (((parseLight
            ⟨fun e => if e = "light.x" ∨ e = "light.y" then some ⟨"on", []⟩
              else none, ∅⟩ ["light.x", "light.y"]).1 ∪
            unionMembers (parseLight
              ⟨fun e => if e = "light.x" ∨ e = "light.y" then some ⟨"on", []⟩
                else none, ∅⟩ ["light.x", "light.y"]).2) ∩ {"light.x"})),
         ("existing_config_entry_id",
          (⟨"A", "light_sync", true, some {"light.x"}⟩ : RegEntry).title)]) ∧
    (∀ entries en fn2 cand s o,
      whetherLightListenByOther entries en fn2 cand = (s, some o) →
      o ∈ entries ∧ o.funcName = fn2 ∧ o.title ≠ en ∧
        o.hasCoordinator = true ∧
        ∃ lids, o.listenedEntityIds = some lids ∧ s = cand ∩ lids ∧
          s.Nonempty) ∧
    (∀ e rest en fn2 cand lids, e.funcName = fn2 → e.title ≠ en →
      e.hasCoordinator = true → e.listenedEntityIds = some lids →
      (cand ∩ lids).Nonempty →
      whetherLightListenByOther (e :: rest) en fn2 cand =
        (cand ∩ lids, some e)) ∧
    (∀ e rest en fn2 cand,
      (e.funcName ≠ fn2 ∨ e.title = en ∨ e.hasCoordinator = false ∨
        ∀ lids, e.listenedEntityIds = some lids → cand ∩ lids = ∅) →
      whetherLightListenByOther (e :: rest) en fn2 cand =
        whetherLightListenByOther rest en fn2 cand)) :=
  ⟨rfl, by decide, by decide, by decide, by decide, by decide,
    c9_conflict_detection
      ⟨fun e => if e = "light.x" ∨ e = "light.y" then some ⟨"on", []⟩
        else none, ∅⟩
      ⟨"A", "light_sync", true, some {"light.x"}⟩ {"light.x"} "B"
      "light_sync" ["light.x", "light.y"] "light.x" rfl (by decide) rfl rfl
      (by decide) (by decide) (by decide) (by decide)⟩

/-- C8 (amended): SWITCH_BIND and EVENT_BIND setups always report satisfied
and subscribe to whatever watch set results — the empty one included — and a
LIGHT_SYNC setup with an empty configured list raises a `TypeError` while
constructing the failure result instead of reaching a structured
SETUP_FAILED state. -/
theorem c8_setup_failure_paths (c1 : SwitchBindCoordinator)
    (c2 : EventBindCoordinator) (h : Host) (entries : List RegEntry)
    (title fn : String) :
    (switchBindListEntitiesToListen c1).satisfied = true ∧
    (eventBindListEntitiesToListen c2).satisfied = true ∧
    switchBindSetup c1 =
      .listening (c1.lightEntityIds ++ c1.switchEntityIds).toFinset ∧
    eventBindSetup c2 = .listening c2.eventEntityIds.toFinset ∧
    lightSyncListEntitiesToListen h entries title fn [] =
      .error "TypeError: unexpected keyword argument errors" ∧
    lightSyncSetup h entries title fn [] =
      .raisedError "TypeError: unexpected keyword argument errors" :=
  ⟨rfl, rfl, rfl, rfl, rfl, rfl⟩

/-- Counterexample for C8 as stated: coordinators with empty resolved watch
sets end up listening (on the empty set) rather than in a failed setup
state. -/
theorem c8_empty_watch_counterexample :
    switchBindSetup ⟨[], []⟩ = .listening ∅ ∧
    eventBindSetup ⟨[], []⟩ = .listening ∅ ∧
    lightSyncSetup ⟨fun _ => none, ∅⟩ [] "B" "light_sync" ["light.x"] =
      .listening ∅ ∧
    ¬ ∃ reason placeholders,
      switchBindSetup ⟨[], []⟩ =
        SetupOutcome.setupError reason placeholders := by
  refine ⟨by decide, by decide, by decide, ?_⟩
  rintro ⟨r, p, hEq⟩
  rw [show switchBindSetup ⟨[], []⟩ = .listening ∅ from by decide] at hEq
  exact SetupOutcome.noConfusion hEq

/-- C10: the light/switch set-state helpers issue a host service call exactly
when the entity id's domain matches the helper and the desired state is
`on`/`off`; otherwise they return no command (and, being total functions,
raise nothing). -/
theorem c10_set_state_guards (e s : String) (attrs : Attrs) :
    ((setLightEntityState e s attrs).isSome ↔
      domainOf e = "light" ∧ (s = STATE_ON ∨ s = STATE_OFF)) ∧
    ((setSwitchEntityState e s).isSome ↔
      domainOf e = "switch" ∧ (s = STATE_ON ∨ s = STATE_OFF)) := by
  constructor <;>
    · simp only [setLightEntityState, setSwitchEntityState]
      split_ifs <;> simp_all

/-- C6: setting a light to `off` issues a command with an empty attribute
set regardless of the input attributes; setting it to `on` issues a command
whose attribute set holds exactly the input entries keyed `brightness` or
`color_temp_kelvin` with a non-null value. -/
theorem c6_light_attr_filtering (e : String) (attrs : Attrs)
    (hd : domainOf e = "light") :
    setLightEntityState e STATE_OFF attrs = some ⟨"light", "turn_off", e, []⟩ ∧
    ∃ cmd, setLightEntityState e STATE_ON attrs = some cmd ∧
      cmd.domain = "light" ∧ cmd.service = "turn_on" ∧ cmd.entityId = e ∧
      ∀ k v, (k, v) ∈ cmd.attrs ↔
        (k = "brightness" ∨ k = "color_temp_kelvin") ∧ (k, some v) ∈ attrs := by
  refine ⟨setLightEntityState_off e attrs hd, _,
    setLightEntityState_on e attrs hd, rfl, rfl, rfl, ?_⟩
  intro k v
  by_cases ha : attrs.isEmpty
  · rw [List.isEmpty_iff] at ha
    simp [ha]
  · simp only [if_neg ha]
    exact mem_filterLightAttrs attrs k v

/-- C1 (amended): a processed LIGHT_SYNC notification from a non-suppressed
source issues commands whose targets are exactly the configured entities
other than the source; with a configured source that is N−1 commands, while
a source that is only a resolved group member leaves all N configured
entities (its own group included) as targets, and resolved members never
receive a direct command. -/
theorem c1_light_sync_fanout (c : LightSyncCoordinator) (st : CoordState)
    (eid : String) (old new : StateObj) (t : Int)
    (hdom : ∀ x ∈ c.lightSyncEntityIds, domainOf x = "light")
    (hne : eid ≠ "")
    (hstate : new.state = STATE_ON ∨ new.state = STATE_OFF)
    (hgroup : ¬ (eid ∈ c.groupKeys ∧ old.state = STATE_UNAVAILABLE))
    (hsup : eid ∉ clearFannedOut st t) :
    let R := lightSyncHandleEvent c st ⟨some eid, some old, some new, t⟩
    R.commands.map (·.entityId) =
      c.lightSyncEntityIds.dedup.filter (· ≠ eid) ∧
    (eid ∈ c.lightSyncEntityIds → c.lightSyncEntityIds.Nodup →
      R.commands.length = c.lightSyncEntityIds.length - 1) ∧
    (eid ∉ c.lightSyncEntityIds →
      R.commands.length = c.lightSyncEntityIds.dedup.length) ∧
    (∀ m, m ∉ c.lightSyncEntityIds → ∀ cmd ∈ R.commands, cmd.entityId ≠ m) := by
  intro R
  have hR : R = ⟨(c.lightSyncEntityIds.dedup.filter (· ≠ eid)).filterMap
      (fun x => setLightEntityState x new.state new.attributes),
    ⟨clearFannedOut st t ∪
        (c.lightSyncEntityIds.toFinset ∪ c.groupKeys.toFinset ∪
          c.lightsInGroup).erase eid, t⟩, false⟩ :=
    lightSyncHandleEvent_processed c st eid old new t hne hstate hgroup hsup
  have hmap : R.commands.map (·.entityId) =
      c.lightSyncEntityIds.dedup.filter (· ≠ eid) := by
    rw [hR]
    exact map_entityId_filterMap _ _ fun x hx =>
      ⟨_, setLightEntityState_eq_some x new.state new.attributes
        (hdom x (List.mem_dedup.mp (List.mem_filter.mp hx).1)) hstate, rfl⟩
  have hlen : R.commands.length =
      (c.lightSyncEntityIds.dedup.filter (· ≠ eid)).length := by
    rw [← hmap, List.length_map]
  refine ⟨hmap, ?_, ?_, ?_⟩
  · intro hmem hnodup
    rw [hlen, List.dedup_eq_self.mpr hnodup,
      show (fun x => decide (x ≠ eid)) = (fun x => x != eid) from
        funext fun x => by by_cases h : x = eid <;> simp [h],
      ← List.Nodup.erase_eq_filter hnodup, List.length_erase_of_mem hmem]
  · intro hmem
    rw [hlen, List.filter_eq_self.mpr]
    intro a ha
    simp only [decide_eq_true_eq]
    exact fun h => hmem (h ▸ List.mem_dedup.mp ha)
  · intro m hm cmd hcmd
    have : cmd.entityId ∈ R.commands.map (·.entityId) :=
      List.mem_map.mpr ⟨cmd, hcmd, rfl⟩
    rw [hmap] at this
    exact fun h =>
      hm (h ▸ List.mem_dedup.mp (List.mem_filter.mp this).1)

/-- Witness for C1's amended statement at a concrete relationship with a
configured plain source. -/
theorem c1_light_sync_fanout_witness :
    (∀ x ∈ (["light.a", "light.b", "light.c"] : List String),
      domainOf x = "light") ∧
    ("light.a" : String) ≠ "" ∧
    ((⟨"on", []⟩ : StateObj).state = STATE_ON ∨
      (⟨"on", []⟩ : StateObj).state = STATE_OFF) ∧
    ¬ (("light.a" : String) ∈
        (⟨["light.a", "light.b", "light.c"], [], ∅⟩ :
          LightSyncCoordinator).groupKeys ∧
        (⟨"off", []⟩ : StateObj).state = STATE_UNAVAILABLE) ∧
    ("light.a" : String) ∉ clearFannedOut initialCoordState 10000000 ∧
    (let R := lightSyncHandleEvent ⟨["light.a", "light.b", "light.c"], [], ∅⟩
        initialCoordState
        ⟨some "light.a", some ⟨"off", []⟩, some ⟨"on", []⟩, 10000000⟩
     R.commands.map (·.entityId) =
      (["light.a", "light.b", "light.c"] : List String).dedup.filter
        (· ≠ "light.a") ∧
    (("light.a" : String) ∈ (["light.a", "light.b", "light.c"] : List String) →
      (["light.a", "light.b", "light.c"] : List String).Nodup →
      R.commands.length =
        (["light.a", "light.b", "light.c"] : List String).length - 1) ∧
    (("light.a" : String) ∉ (["light.a", "light.b", "light.c"] : List String) →
      R.commands.length =
        (["light.a", "light.b", "light.c"] : List String).dedup.length) ∧
    (∀ m, m ∉ (["light.a", "light.b", "light.c"] : List String) →
      ∀ cmd ∈ R.commands, cmd.entityId ≠ m)) :=
  ⟨by decide, by decide, by decide, by decide, by decide,
    c1_light_sync_fanout ⟨["light.a", "light.b", "light.c"], [], ∅⟩
      initialCoordState "light.a" ⟨"off", []⟩ ⟨"on", []⟩ 10000000
      (by decide) (by decide) (by decide) (by decide) (by decide)⟩

/-- Counterexample for C1 as stated: with configured entities
`[light.g, light.p]` where `light.g` is a tracked group with members
`light.a`, `light.b`, a change of the member `light.a` issues commands to
both configured entities — N, not N−1, and the member's own group among
them. -/
theorem c1_group_member_counterexample :
    ("light.g", ({"light.a", "light.b"} : Finset String)) ∈
      (⟨["light.g", "light.p"], [("light.g", {"light.a", "light.b"})],
        {"light.a", "light.b"}⟩ : LightSyncCoordinator).lightsOfGroup ∧
    ("light.a" : String) ∈ ({"light.a", "light.b"} : Finset String) ∧
    (lightSyncHandleEvent
        ⟨["light.g", "light.p"], [("light.g", {"light.a", "light.b"})],
          {"light.a", "light.b"}⟩
        initialCoordState
        ⟨some "light.a", some ⟨"off", []⟩, some ⟨"on", []⟩,
          10000000⟩).commands.map (·.entityId) = ["light.g", "light.p"] ∧
    ¬ ((lightSyncHandleEvent
        ⟨["light.g", "light.p"], [("light.g", {"light.a", "light.b"})],
          {"light.a", "light.b"}⟩
        initialCoordState
        ⟨some "light.a", some ⟨"off", []⟩, some ⟨"on", []⟩,
          10000000⟩).commands.length =
      (["light.g", "light.p"] : List String).length - 1) := by
  decide

/-- C2 evidence: the LIGHT_SYNC handler drops a suppressed entity's
notification arriving within the window, but the SWITCH_BIND handler — which
never consults `_fanned_out_entity_ids` — issues commands for an entity that
is in the suppressed set at arrival. -/
theorem c2_suppression_check_missing :
    ("light.b" : String) ∈ (⟨{"light.b"}, 10000000⟩ : CoordState).fannedOut ∧
    (lightSyncHandleEvent ⟨["light.a", "light.b"], [], ∅⟩
        ⟨{"light.b"}, 10000000⟩
        ⟨some "light.b", some ⟨"off", []⟩, some ⟨"on", []⟩,
          11000000⟩).commands = [] ∧
    ("light.l1" : String) ∈
      (⟨{"light.l1", "light.l2"}, 10000000⟩ : CoordState).fannedOut ∧
    (switchBindHandleEvent ⟨["light.l1", "light.l2"], ["switch.s1"]⟩
        ⟨{"light.l1", "light.l2"}, 10000000⟩
        ⟨some "light.l1", some ⟨"off", []⟩, some ⟨"on", []⟩,
          11000000⟩).commands =
      [⟨"light", "turn_on", "light.l2", []⟩,
        ⟨"switch", "turn_on", "switch.s1", []⟩] := by
  decide

/-- C3: whenever the gap between the last processed notification and the
current one exceeds 3 seconds, every coordinator's suppressed set is cleared
before the suppression check, so the notification is handled exactly as if
the suppressed set were empty. -/
theorem c3_quiescence_reset (lsc : LightSyncCoordinator)
    (sbc : SwitchBindCoordinator) (ebc : EventBindCoordinator)
    (states : String → Option StateObj) (st : CoordState) (eid : String)
    (old new : StateObj) (t : Int)
    (hne : eid ≠ "")
    (hstate : new.state = STATE_ON ∨ new.state = STATE_OFF)
    (hgroup : ¬ (eid ∈ lsc.groupKeys ∧ old.state = STATE_UNAVAILABLE))
    (hgap : t - st.lastUpdate > threeSeconds) :
    clearFannedOut st t = ∅ ∧
    lightSyncHandleEvent lsc st ⟨some eid, some old, some new, t⟩ =
      lightSyncHandleEvent lsc ⟨∅, st.lastUpdate⟩
        ⟨some eid, some old, some new, t⟩ ∧
    switchBindHandleEvent sbc st ⟨some eid, some old, some new, t⟩ =
      switchBindHandleEvent sbc ⟨∅, st.lastUpdate⟩
        ⟨some eid, some old, some new, t⟩ ∧
    eventBindHandleEvent ebc states st ⟨some eid, some old, some new, t⟩ =
      eventBindHandleEvent ebc states ⟨∅, st.lastUpdate⟩
        ⟨some eid, some old, some new, t⟩ := by
  have hclear : clearFannedOut st t = ∅ := by
    simp [clearFannedOut, Or.inr hgap]
  have hclear2 : clearFannedOut ⟨∅, st.lastUpdate⟩ t = ∅ := ite_self ∅
  refine ⟨hclear, ?_, ?_, ?_⟩
  · rw [lightSyncHandleEvent_processed lsc st eid old new t hne hstate hgroup
        (by rw [hclear]; exact Finset.not_mem_empty eid),
      lightSyncHandleEvent_processed lsc ⟨∅, st.lastUpdate⟩ eid old new t hne
        hstate hgroup (by rw [hclear2]; exact Finset.not_mem_empty eid),
      hclear, hclear2]
  · by_cases hmem : eid ∈ sbc.lightEntityIds ++ sbc.switchEntityIds
    · rw [switchBindHandleEvent_processed sbc st eid old new t hne hmem,
        switchBindHandleEvent_processed sbc ⟨∅, st.lastUpdate⟩ eid old new t
          hne hmem, hclear, hclear2]
    · rw [switchBindHandleEvent_unknown sbc st eid old new t hne hmem,
        switchBindHandleEvent_unknown sbc ⟨∅, st.lastUpdate⟩ eid old new t
          hne hmem, hclear, hclear2]
  · by_cases hmem : eid ∈ ebc.eventEntityIds
    · rw [eventBindHandleEvent_processed ebc states st eid old new t hne hmem,
        eventBindHandleEvent_processed ebc states ⟨∅, st.lastUpdate⟩ eid old
          new t hne hmem, hclear, hclear2]
    · rw [eventBindHandleEvent_unknown ebc states st eid old new t hne hmem,
        eventBindHandleEvent_unknown ebc states ⟨∅, st.lastUpdate⟩ eid old
          new t hne hmem, hclear, hclear2]

/-- Witness for C3: a 8-second gap at concrete coordinators. -/
theorem c3_quiescence_reset_witness :
    ("light.a" : String) ≠ "" ∧
    (("on" : String) = STATE_ON ∨ ("on" : String) = STATE_OFF) ∧
    ¬ (("light.a" : String) ∈
        (⟨["light.a", "light.b"], [], ∅⟩ : LightSyncCoordinator).groupKeys ∧
        (⟨"off", []⟩ : StateObj).state = STATE_UNAVAILABLE) ∧
    ((9000000 : Int) - (⟨{"light.a"}, 1000000⟩ : CoordState).lastUpdate >
      threeSeconds) ∧
    (clearFannedOut ⟨{"light.a"}, 1000000⟩ 9000000 = ∅ ∧
    lightSyncHandleEvent ⟨["light.a", "light.b"], [], ∅⟩
        ⟨{"light.a"}, 1000000⟩
        ⟨some "light.a", some ⟨"off", []⟩, some ⟨"on", []⟩, 9000000⟩ =
      lightSyncHandleEvent ⟨["light.a", "light.b"], [], ∅⟩ ⟨∅, 1000000⟩
        ⟨some "light.a", some ⟨"off", []⟩, some ⟨"on", []⟩, 9000000⟩ ∧
    switchBindHandleEvent ⟨["light.a"], ["switch.s"]⟩ ⟨{"light.a"}, 1000000⟩
        ⟨some "light.a", some ⟨"off", []⟩, some ⟨"on", []⟩, 9000000⟩ =
      switchBindHandleEvent ⟨["light.a"], ["switch.s"]⟩ ⟨∅, 1000000⟩
        ⟨some "light.a", some ⟨"off", []⟩, some ⟨"on", []⟩, 9000000⟩ ∧
    eventBindHandleEvent ⟨["light.a"], ["event.e"]⟩ (fun _ => none)
        ⟨{"light.a"}, 1000000⟩
        ⟨some "light.a", some ⟨"off", []⟩, some ⟨"on", []⟩, 9000000⟩ =
      eventBindHandleEvent ⟨["light.a"], ["event.e"]⟩ (fun _ => none)
        ⟨∅, 1000000⟩
        ⟨some "light.a", some ⟨"off", []⟩, some ⟨"on", []⟩, 9000000⟩) :=
  ⟨by decide, by decide, by decide, by decide,
    c3_quiescence_reset ⟨["light.a", "light.b"], [], ∅⟩
      ⟨["light.a"], ["switch.s"]⟩ ⟨["light.a"], ["event.e"]⟩ (fun _ => none)
      ⟨{"light.a"}, 1000000⟩ "light.a" ⟨"off", []⟩ ⟨"on", []⟩ 9000000
      (by decide) (by decide) (by decide) (by decide)⟩

/-- C4 (amended): a processed SWITCH_BIND notification from any bound entity
(light or switch alike) issues commands to all other bound entities — lights
through the light helper and switches through the switch helper — and a
source that is neither bound light nor bound switch is dropped with no
command. -/
theorem c4_switch_bind_routing (c : SwitchBindCoordinator) (st : CoordState)
    (eid : String) (old new : StateObj) (t : Int)
    (hne : eid ≠ "")
    (hl : ∀ x ∈ c.lightEntityIds, domainOf x = "light")
    (hs : ∀ x ∈ c.switchEntityIds, domainOf x = "switch")
    (hstate : new.state = STATE_ON ∨ new.state = STATE_OFF) :
    let R := switchBindHandleEvent c st ⟨some eid, some old, some new, t⟩
    (eid ∈ c.lightEntityIds ++ c.switchEntityIds →
      (∀ x, x ∈ R.commands.map (·.entityId) ↔
        (x ∈ c.lightEntityIds ++ c.switchEntityIds ∧ x ≠ eid)) ∧
      ∀ cmd ∈ R.commands,
        (cmd.entityId ∈ c.lightEntityIds → cmd.domain = "light") ∧
        (cmd.entityId ∈ c.switchEntityIds → cmd.domain = "switch")) ∧
    (eid ∉ c.lightEntityIds ++ c.switchEntityIds → R.commands = []) := by
  intro R
  have hdisj : ∀ x, x ∈ c.lightEntityIds → x ∈ c.switchEntityIds → False := by
    intro x h1 h2
    have := (hl x h1).symm.trans (hs x h2)
    simp at this
  constructor
  · intro hmem
    have hR : R = ⟨((c.lightEntityIds ++ c.switchEntityIds).dedup.filter
        (· ≠ eid)).filterMap
        (fun e =>
          if e ∈ c.lightEntityIds then setLightEntityState e new.state []
          else if e ∈ c.switchEntityIds then setSwitchEntityState e new.state
          else none),
      ⟨clearFannedOut st t ∪ c.lightEntityIds.toFinset, t⟩, false⟩ :=
      switchBindHandleEvent_processed c st eid old new t hne hmem
    have hsome : ∀ x ∈ (c.lightEntityIds ++ c.switchEntityIds).dedup.filter
        (· ≠ eid),
        ∃ cmd,
          (if x ∈ c.lightEntityIds then setLightEntityState x new.state []
           else if x ∈ c.switchEntityIds then setSwitchEntityState x new.state
           else none) = some cmd ∧ cmd.entityId = x ∧
          (x ∈ c.lightEntityIds → cmd.domain = "light") ∧
          (x ∈ c.switchEntityIds → cmd.domain = "switch") := by
      intro x hx
      have hx2 := List.mem_dedup.mp (List.mem_filter.mp hx).1
      by_cases hxl : x ∈ c.lightEntityIds
      · refine ⟨_, by
          rw [if_pos hxl,
            setLightEntityState_empty_attrs x new.state (hl x hxl) hstate],
          rfl, fun _ => rfl, fun hxs => absurd (hdisj x hxl hxs) not_false⟩
      · have hxs : x ∈ c.switchEntityIds :=
          (List.mem_append.mp hx2).resolve_left hxl
        refine ⟨_, by
          rw [if_neg hxl, if_pos hxs,
            setSwitchEntityState_eq_some x new.state (hs x hxs) hstate],
          rfl, fun hxl2 => absurd hxl2 hxl, fun _ => rfl⟩
    have hmap : R.commands.map (·.entityId) =
        (c.lightEntityIds ++ c.switchEntityIds).dedup.filter (· ≠ eid) := by
      rw [hR]
      exact map_entityId_filterMap _ _ fun x hx =>
        let ⟨cmd, h1, h2, _⟩ := hsome x hx
        ⟨cmd, h1, h2⟩
    refine ⟨?_, ?_⟩
    · intro x
      rw [hmap]
      simp [List.mem_filter, List.mem_dedup]
    · intro cmd hcmd
      rw [hR] at hcmd
      obtain ⟨x, hx, hfx⟩ := List.mem_filterMap.mp hcmd
      obtain ⟨cmd', h1, h2, h3, h4⟩ := hsome x hx
      rw [h1] at hfx
      obtain rfl : cmd' = cmd := Option.some.inj hfx
      rw [h2]
      exact ⟨h3, h4⟩
  · intro hmem
    show (switchBindHandleEvent c st
      ⟨some eid, some old, some new, t⟩).commands = []
    rw [switchBindHandleEvent_unknown c st eid old new t hne hmem]

/-- Witness for C4's amended statement at a concrete relationship, once with
a light source and once (trivially, the unknown branch) with a stranger. -/
theorem c4_switch_bind_routing_witness :
    ("light.l1" : String) ≠ "" ∧
    (∀ x ∈ (["light.l1", "light.l2"] : List String), domainOf x = "light") ∧
    (∀ x ∈ (["switch.s1"] : List String), domainOf x = "switch") ∧
    ((⟨"on", []⟩ : StateObj).state = STATE_ON ∨
      (⟨"on", []⟩ : StateObj).state = STATE_OFF) ∧
    (let R := switchBindHandleEvent ⟨["light.l1", "light.l2"], ["switch.s1"]⟩
        initialCoordState
        ⟨some "light.l1", some ⟨"off", []⟩, some ⟨"on", []⟩, 10000000⟩
     (("light.l1" : String) ∈
        (["light.l1", "light.l2"] : List String) ++ ["switch.s1"] →
      (∀ x, x ∈ R.commands.map (·.entityId) ↔
        (x ∈ (["light.l1", "light.l2"] : List String) ++ ["switch.s1"] ∧
          x ≠ "light.l1")) ∧
      ∀ cmd ∈ R.commands,
        (cmd.entityId ∈ (["light.l1", "light.l2"] : List String) →
          cmd.domain = "light") ∧
        (cmd.entityId ∈ (["switch.s1"] : List String) →
          cmd.domain = "switch")) ∧
    (("light.l1" : String) ∉
        (["light.l1", "light.l2"] : List String) ++ ["switch.s1"] →
      R.commands = [])) :=
  ⟨by decide, by decide, by decide, by decide,
    c4_switch_bind_routing ⟨["light.l1", "light.l2"], ["switch.s1"]⟩
      initialCoordState "light.l1" ⟨"off", []⟩ ⟨"on", []⟩ 10000000
      (by decide) (by decide) (by decide) (by decide)⟩

/-- Counterexample for C4 as stated: with two bound lights and one bound
switch, a change of the bound light `light.l1` issues a command to the other
light `light.l2` as well, not only to the bound switch entities. -/
theorem c4_switch_bind_counterexample :
    (switchBindHandleEvent ⟨["light.l1", "light.l2"], ["switch.s1"]⟩
        initialCoordState
        ⟨some "light.l1", some ⟨"off", []⟩, some ⟨"on", []⟩,
          10000000⟩).commands.map (·.entityId) = ["light.l2", "switch.s1"] ∧
    ¬ (∀ cmd ∈ (switchBindHandleEvent ⟨["light.l1", "light.l2"], ["switch.s1"]⟩
        initialCoordState
        ⟨some "light.l1", some ⟨"off", []⟩, some ⟨"on", []⟩,
          10000000⟩).commands, cmd.entityId ∈ (["switch.s1"] : List String)) := by
  decide

/-- C5 (amended): the wireless flag of a SWITCH_BIND payload is never read,
so a wireless relationship is handled exactly like the non-wireless handler
handles its entity-id lists. -/
theorem c5_wireless_flag_ignored (p : SwitchBindPayload)
    (_hw : p.wireless = true) (st : CoordState) (ev : HAEvent) :
    switchBindPayloadHandleEvent p st ev =
      switchBindHandleEvent ⟨p.lightEntityIds, p.switchEntityIds⟩ st ev := rfl

/-- Witness for C5's amended statement. -/
theorem c5_wireless_flag_ignored_witness :
    (⟨["switch.s1"], ["light.l1"], true⟩ : SwitchBindPayload).wireless =
      true ∧
    switchBindPayloadHandleEvent ⟨["switch.s1"], ["light.l1"], true⟩
        initialCoordState
        ⟨some "switch.s1", some ⟨"off", []⟩, some ⟨"on", []⟩, 10000000⟩ =
      switchBindHandleEvent ⟨["light.l1"], ["switch.s1"]⟩ initialCoordState
        ⟨some "switch.s1", some ⟨"off", []⟩, some ⟨"on", []⟩, 10000000⟩ :=
  ⟨rfl,
    c5_wireless_flag_ignored ⟨["switch.s1"], ["light.l1"], true⟩ rfl
      initialCoordState
      ⟨some "switch.s1", some ⟨"off", []⟩, some ⟨"on", []⟩, 10000000⟩⟩

/-- Counterexample for C5 as stated: with wireless=true, a bound light's
state change is not ignored (the bound switch is commanded), and a switch
state change does issue a command (the bound light is commanded). -/
theorem c5_wireless_counterexample :
    (⟨["switch.s1"], ["light.l1"], true⟩ : SwitchBindPayload).wireless =
      true ∧
    (switchBindPayloadHandleEvent ⟨["switch.s1"], ["light.l1"], true⟩
        initialCoordState
        ⟨some "light.l1", some ⟨"off", []⟩, some ⟨"on", []⟩,
          10000000⟩).commands =
      [⟨"switch", "turn_on", "switch.s1", []⟩] ∧
    (switchBindPayloadHandleEvent ⟨["switch.s1"], ["light.l1"], true⟩
        initialCoordState
        ⟨some "switch.s1", some ⟨"off", []⟩, some ⟨"on", []⟩,
          10000000⟩).commands =
      [⟨"light", "turn_on", "light.l1", []⟩] := by
  decide

/-- Witness for C6 at a concrete light and attribute dict. -/
theorem c6_light_attr_filtering_witness :
    domainOf "light.x" = "light" ∧
    (setLightEntityState "light.x" STATE_OFF
        [("brightness", some (.num 128)), ("color_temp_kelvin", none),
          ("color_mode", some (.str "xy"))] =
      some ⟨"light", "turn_off", "light.x", []⟩ ∧
    ∃ cmd, setLightEntityState "light.x" STATE_ON
        [("brightness", some (.num 128)), ("color_temp_kelvin", none),
          ("color_mode", some (.str "xy"))] = some cmd ∧
      cmd.domain = "light" ∧ cmd.service = "turn_on" ∧
      cmd.entityId = "light.x" ∧
      ∀ k v, (k, v) ∈ cmd.attrs ↔
        (k = "brightness" ∨ k = "color_temp_kelvin") ∧
          (k, some v) ∈ [("brightness", some (.num 128)),
            ("color_temp_kelvin", none), ("color_mode", some (.str "xy"))]) :=
  ⟨by decide,
    c6_light_attr_filtering "light.x"
      [("brightness", some (.num 128)), ("color_temp_kelvin", none),
        ("color_mode", some (.str "xy"))] (by decide)⟩

end OhMyLight
